import Mathlib

/-!
Verification of the semantic-multi-agent-search pipeline.

Shallow embedding of the three source files:
  * `src/agent_protocol.py` — message model, conversation state, the
    `AgentProtocol` coordinator (`send_message`, `get_conversation_history`);
  * `src/specialized_agents.py` — the Research / Analysis / Formatting
    stages (`process_message`, `_expand_query`, `_conduct_search`,
    `_rank_results`);
  * `src/api.py` — the SSE event generator `generate_search_events`.

External calls (the LLM chains, the reasoner, the clock, uuid) are passed
in as oracle parameters; Python values decoded from JSON are modelled by
the `JsonValue` inductive; Python exceptions are modelled by `Except`.
-/

/-- Model of a Python value as decoded by `JsonOutputParser` (and of the
open-ended `Dict[str, Any]` metadata values): strings, numbers, booleans,
`None`, lists and dicts (dicts as insertion-ordered association lists). -/
inductive JsonValue where
  | str : String → JsonValue
  | num : Int → JsonValue
  | bool : Bool → JsonValue
  | null : JsonValue
  | arr : List JsonValue → JsonValue
  | obj : List (String × JsonValue) → JsonValue

/-- `d[key]` lookup on a dict modelled as an association list
(first match; keys of a Python dict are unique). -/
def dictGet : List (String × JsonValue) → String → Option JsonValue
  | [], _ => none
  | (k, v) :: rest, key => if k = key then some v else dictGet rest key

/-- `AgentRole` from `src/agent_protocol.py`: the standardized roles. -/
inductive AgentRole where
  | user | assistant | system | researcher | analyzer | formatter
deriving DecidableEq

/-- `AgentMessage` from `src/agent_protocol.py`.  `timestamp` (a
`time.time()` reading) and `message_id` (a uuid) are modelled as naturals
supplied by the caller, standing for the external clock / uuid source. -/
structure AgentMessage where
  role : AgentRole
  content : String
  metadata : List (String × JsonValue)
  timestamp : Nat
  message_id : Nat

/-- `AgentState` from `src/agent_protocol.py`: the conversation state. -/
structure AgentState where
  messages : List AgentMessage
  context : List (String × JsonValue)
  status : String

/-- The `AgentProtocol` coordinator's own state: its `AgentState` plus the
registration table `self.agents` (only the registered names matter to the
routing logic; the stage objects themselves are supplied to `send_message`
as a behaviour oracle). -/
structure AgentProtocol where
  state : AgentState
  agents : List String

/-- The fresh `AgentProtocol()` of `__init__`: empty state, no agents. -/
def AgentProtocol.init : AgentProtocol :=
  { state := { messages := [], context := [], status := "idle" }, agents := [] }

/-- `register_agent`: store the stage name in the registration table. -/
def register_agent (p : AgentProtocol) (agent_id : String) : AgentProtocol :=
  { p with agents := p.agents ++ [agent_id] }

/-- The `AgentMessage(role=AgentRole.ASSISTANT, content=..., metadata=metadata or {})`
constructed inside `send_message` (note: the role is the literal
`AgentRole.ASSISTANT`; `from_agent` plays no part). -/
def mkDispatchMessage (content : String) (metadata : Option (List (String × JsonValue)))
    (ts mid : Nat) : AgentMessage :=
  { role := .assistant, content := content, metadata := metadata.getD [],
    timestamp := ts, message_id := mid }

/-- `AgentProtocol.send_message` from `src/agent_protocol.py` (lines 42–63):
raises `ValueError` if `to_agent` is unregistered; otherwise constructs the
message, appends it to `self.state.messages`, invokes the target stage's
`process_message` (the oracle `process`, which may itself raise), and
returns the response.  The response is returned, not appended.
Returns the (result, updated protocol) pair; `Except.error` models a raised
exception, after which the protocol state is whatever had been mutated. -/
def send_message (p : AgentProtocol)
    (process : String → AgentMessage → Except String AgentMessage)
    (ts mid : Nat)
    (from_agent to_agent : String) (content : String)
    (metadata : Option (List (String × JsonValue))) :
    Except String AgentMessage × AgentProtocol :=
  if to_agent ∈ p.agents then
    let message := mkDispatchMessage content metadata ts mid
    let p' := { p with state := { p.state with messages := p.state.messages ++ [message] } }
    match process to_agent message with
    | .ok response => (.ok response, p')
    | .error e => (.error e, p')
  else
    (.error ("Agent " ++ to_agent ++ " not found"), p)

/-- `AgentProtocol.get_conversation_history` from `src/agent_protocol.py`
(lines 65–69): `if limit:` (Python truthiness — `None` and `0` are falsy)
`return self.state.messages[-limit:]`, else the whole list.  For a positive
`n`, the slice `xs[-n:]` is `xs.drop (xs.length - n)`.  Modelled as a state
transformer to record that the method leaves the protocol untouched. -/
def get_conversation_history (p : AgentProtocol) (limit : Option Nat) :
    List AgentMessage × AgentProtocol :=
  match limit with
  | some n =>
      if n ≠ 0 then (p.state.messages.drop (p.state.messages.length - n), p)
      else (p.state.messages, p)
  | none => (p.state.messages, p)

/-- The driver of a pipeline run: a sequence of `send_message` calls, each
described by its (clock, uuid, from, to, content) arguments; a raised
exception aborts the run (models the caller issuing successive dispatches,
as `§4.3` sequencing places the order in the driver). -/
def runDispatches (process : String → AgentMessage → Except String AgentMessage) :
    AgentProtocol → List (Nat × Nat × String × String × String) →
    Except String AgentProtocol
  | p, [] => .ok p
  | p, (ts, mid, f, t, c) :: rest =>
      match send_message p process ts mid f t c none with
      | (.ok _, p') => runDispatches process p' rest
      | (.error e, _) => .error e

/-! ## `src/specialized_agents.py` -/

mutual

/-- Python `str()` applied to a decoded value, as `PromptTemplate.format`
does when splicing a non-string variable into a prompt. -/
def pyStr : JsonValue → String
  | .str s => s
  | .num n => toString n
  | .bool b => if b then "True" else "False"
  | .null => "None"
  | .arr xs => "[" ++ String.intercalate ", " (pyStrList xs) ++ "]"
  | .obj fs => "\x7b" ++ String.intercalate ", " (pyStrFields fs) ++ "\x7d"

/-- `str()` of each element of a list. -/
def pyStrList : List JsonValue → List String
  | [] => []
  | x :: xs => pyStr x :: pyStrList xs

/-- `str()` of each `key: value` entry of a dict. -/
def pyStrFields : List (String × JsonValue) → List String
  | [] => []
  | (k, v) :: fs => (k ++ ": " ++ pyStr v) :: pyStrFields fs

end

/-- `isinstance(result, list)`. -/
def JsonValue.isList : JsonValue → Bool
  | .arr _ => true
  | _ => false

/-- `isinstance(result, dict) and "variations" in result`. -/
def hasVariationsKey : JsonValue → Bool
  | .obj fields => (dictGet fields "variations").isSome
  | _ => false

/-- The generic fallback variations of `ResearchAgent._expand_query`
(lines 103–109): the 4 templated variants built from the query. -/
def fallbackVariations (query : String) : List String :=
  [query ++ " overview and background",
   query ++ " key aspects and features",
   query ++ " impact and significance",
   query ++ " current status and developments"]

/-- `ResearchAgent._expand_query` (lines 90–111), after the expansion
chain has produced `result` (the oracle's decoded output): a dict with a
`"variations"` key yields that value, a list yields itself, anything else
yields the 4 templated fallback variations. -/
def expand_query (query : String) (result : JsonValue) : JsonValue :=
  match result with
  | .obj fields =>
      match dictGet fields "variations" with
      | some v => v
      | none => .arr ((fallbackVariations query).map .str)
  | .arr xs => .arr xs
  | _ => .arr ((fallbackVariations query).map .str)

/-- Python iteration over the expanded-queries value, as the list
comprehension `for aspect in expanded_queries` performs it: lists yield
their elements, dicts their keys, strings their characters; other values
raise `TypeError`. -/
def iterElems : JsonValue → Except String (List JsonValue)
  | .arr xs => .ok xs
  | .obj fields => .ok (fields.map (fun f => .str f.1))
  | .str s => .ok (s.toList.map (fun c => .str (String.singleton c)))
  | _ => .error "TypeError: object is not iterable"

/-- The labelled blocks of `_rank_results` (line 143): the comprehension
`f"Result \x7bi+1\x7d:\n\x7bresult\x7d" for i, result in enumerate(results)`, written
with an explicit running index `i`. -/
def labelFrom : Nat → List String → List String
  | _, [] => []
  | i, r :: rs => ("Result " ++ toString (i + 1) ++ ":\n" ++ r) :: labelFrom (i + 1) rs

/-- Python `"\n\n".join(xs)`. -/
def join2NL : List String → String
  | [] => ""
  | [r] => r
  | r :: rs => r ++ "\n\n" ++ join2NL rs

/-- The `combined_results` string of `_rank_results` (line 143): the
labelled blocks joined with blank lines. -/
def combinedResults (results : List String) : String :=
  join2NL (labelFrom 0 results)

/-- `ResearchAgent._rank_results` (lines 124–152): hand the original query
and the combined labelled text to the ranking chain (oracle `rank`). -/
def rank_results (rank : String → String → String)
    (results : List String) (original_query : String) : String :=
  rank original_query (combinedResults results)

/-- `ResearchAgent.process_message` (lines 50–88): expand the query, fan
out one `_conduct_search` per aspect (the searches are gathered in task
order, so the result list is `aspects.map ...`), rank, and build the
researcher response.  The oracles stand for the three LLM chains; `ts`,
`mid` for the response's auto-filled timestamp and uuid.  Iterating a
non-iterable expansion value raises, hence the `Except`. -/
def ResearchAgent.process_message
    (expandOracle : String → JsonValue)
    (conduct : String → String → String)
    (rank : String → String → String)
    (ts mid : Nat) (message : AgentMessage) : Except String AgentMessage :=
  let query := message.content
  let expanded_queries := expand_query query (expandOracle query)
  match iterElems expanded_queries with
  | .error e => .error e
  | .ok aspects =>
      let search_results := aspects.map (fun aspect => conduct query (pyStr aspect))
      let combined := rank_results rank search_results query
      .ok { role := .researcher, content := combined,
            metadata :=
              [("query", .str query),
               ("expanded_queries", expanded_queries),
               ("research_type",
                 (dictGet message.metadata "research_type").getD (.str "semantic_search")),
               ("reasoning",
                 .str ("Research completed: " ++ toString search_results.length
                    ++ " results found and analyzed"))],
            timestamp := ts, message_id := mid }

/-- `AnalysisAgent.process_message` (lines 189–209): extract the original
query from metadata (default `""`), analyze via the chain (oracle
`analyze`), and build the analyzer response. -/
def AnalysisAgent.process_message (analyze : String → String → String)
    (ts mid : Nat) (message : AgentMessage) : AgentMessage :=
  let original_query := (dictGet message.metadata "query").getD (.str "")
  let analysis_result := analyze message.content (pyStr original_query)
  { role := .analyzer, content := analysis_result,
    metadata :=
      [("analysis_type", (dictGet message.metadata "analysis_type").getD (.str "comprehensive")),
       ("reasoning",
         .str "Analysis completed: Generated a direct answer based on the search results")],
    timestamp := ts, message_id := mid }

/-- `FormattingAgent.process_message` (lines 254–271): format the content
via the chain (oracle `formatOracle`) and build the formatter response. -/
def FormattingAgent.process_message (formatOracle : String → String)
    (ts mid : Nat) (message : AgentMessage) : AgentMessage :=
  { role := .formatter, content := formatOracle message.content,
    metadata :=
      [("format_type", (dictGet message.metadata "format_type").getD (.str "markdown")),
       ("reasoning",
         .str "Formatting completed: Content organized with proper Markdown formatting for better readability")],
    timestamp := ts, message_id := mid }

/-! ## `src/api.py` -/

/-- The `type` field of the SSE events emitted by `generate_search_events`. -/
inductive EventType where
  | status | analysis | expansion | semantics | results | complete | error
deriving DecidableEq

/-- One SSE event, the payload of one `data:` line: `\x7b"type": ...,
"content": ...\x7d` (the JSON serialization is plumbing; the event is
modelled structurally). -/
structure SSEEvent where
  type : EventType
  content : String
deriving DecidableEq

/-- A terminal event: `complete` or `error`. -/
def SSEEvent.isTerminal (e : SSEEvent) : Bool :=
  match e.type with
  | .complete => true
  | .error => true
  | _ => false

/-- The event sequence `generate_search_events` yields when no exception
escapes the `try` block, given the four `process_node` outputs (the
`process_node` helper catches its own exceptions and returns an error
string, so the reasoner cannot abort the generator). -/
def successEvents (analysis_result expansion_result semantic_result search_result : String) :
    List SSEEvent :=
  [⟨.status, "Starting analysis..."⟩,
   ⟨.status, "🤔 Analyzing query..."⟩,
   ⟨.analysis, analysis_result⟩,
   ⟨.status, "🔍 Expanding search terms..."⟩,
   ⟨.expansion, expansion_result⟩,
   ⟨.status, "🧠 Performing semantic analysis..."⟩,
   ⟨.semantics, semantic_result⟩,
   ⟨.status, "🌐 Searching..."⟩,
   ⟨.results, search_result⟩,
   ⟨.complete, "Search completed"⟩]

/-- `generate_search_events` from `src/api.py` (lines 41–116): the whole
body sits in one `try`; the `except` clause yields a single `error` event
and the generator ends.  `failure = some (k, msg)` models an exception
with message `msg` raised after `k` events have been yielded; since
nothing follows the final `yield` inside the `try`, a failure can occur
only before the `complete` event is emitted (hence `min k 9`).
`failure = none` is the success path. -/
def generate_search_events (ar er sr wr : String) (failure : Option (Nat × String)) :
    List SSEEvent :=
  match failure with
  | none => successEvents ar er sr wr
  | some (k, msg) => (successEvents ar er sr wr).take (min k 9) ++ [⟨.error, msg⟩]

/-! ## Concrete fixtures used by witnesses and counterexamples -/

/-- A stage response used by the stub stage. -/
def stubResponse : AgentMessage :=
  { role := .researcher, content := "resp", metadata := [], timestamp := 0, message_id := 0 }

/-- A stage oracle that always succeeds with `stubResponse`. -/
def stubProcess : String → AgentMessage → Except String AgentMessage :=
  fun _ _ => .ok stubResponse

/-- A stage oracle that always raises. -/
def failProcess : String → AgentMessage → Except String AgentMessage :=
  fun _ _ => .error "boom"

/-- A coordinator with one registered stage named `"research"` and an
empty history, as after `AgentProtocol(); register_agent("research", ...)`. -/
def protocol₀ : AgentProtocol :=
  register_agent AgentProtocol.init "research"

/-- A concrete 3-dispatch run script (clock, uuid, from, to, content). -/
def calls₃ : List (Nat × Nat × String × String × String) :=
  [(1, 1, "user", "research", "q1"),
   (2, 2, "research", "research", "q2"),
   (3, 3, "research", "research", "q3")]

/-- The coordinator state after running `calls₃` on `protocol₀` with the
stub stage: the three dispatch input messages, in call order. -/
def protocol₃ : AgentProtocol :=
  { state :=
      { messages :=
          [mkDispatchMessage "q1" none 1 1,
           mkDispatchMessage "q2" none 2 2,
           mkDispatchMessage "q3" none 3 3],
        context := [], status := "idle" },
    agents := ["research"] }

/-! ## Helper lemmas about `send_message` -/

/-- When the target is registered and its stage succeeds, `send_message`
returns the response and the history grows by the one dispatch message. -/
theorem send_message_ok_eq (p : AgentProtocol)
    (process : String → AgentMessage → Except String AgentMessage)
    (ts mid : Nat) (f t c : String) (md : Option (List (String × JsonValue)))
    (r : AgentMessage) (hmem : t ∈ p.agents)
    (hp : process t (mkDispatchMessage c md ts mid) = .ok r) :
    send_message p process ts mid f t c md =
      (.ok r,
       { p with state := { p.state with
           messages := p.state.messages ++ [mkDispatchMessage c md ts mid] } }) := by
  simp [send_message, hmem, hp]

/-- When the target is registered but its stage raises, `send_message`
propagates the error and the history still grows by the dispatch message. -/
theorem send_message_error_eq (p : AgentProtocol)
    (process : String → AgentMessage → Except String AgentMessage)
    (ts mid : Nat) (f t c : String) (md : Option (List (String × JsonValue)))
    (e : String) (hmem : t ∈ p.agents)
    (hp : process t (mkDispatchMessage c md ts mid) = .error e) :
    send_message p process ts mid f t c md =
      (.error e,
       { p with state := { p.state with
           messages := p.state.messages ++ [mkDispatchMessage c md ts mid] } }) := by
  simp [send_message, hmem, hp]

/-- Whenever `send_message` returns `.ok`, the resulting history is the
old history with exactly the one dispatch message appended. -/
theorem send_message_ok_inv (p : AgentProtocol)
    (process : String → AgentMessage → Except String AgentMessage)
    (ts mid : Nat) (f t c : String) (md : Option (List (String × JsonValue)))
    (m : AgentMessage) (q : AgentProtocol)
    (h : send_message p process ts mid f t c md = (.ok m, q)) :
    q.state.messages = p.state.messages ++ [mkDispatchMessage c md ts mid] := by
  by_cases hmem : t ∈ p.agents
  · cases hp : process t (mkDispatchMessage c md ts mid) with
    | ok r =>
        rw [send_message_ok_eq p process ts mid f t c md r hmem hp] at h
        cases h
        rfl
    | error e =>
        rw [send_message_error_eq p process ts mid f t c md e hmem hp] at h
        cases h
  · simp [send_message, hmem] at h

/-! ## C1 -/

/-- C1 counterexample: one dispatch of a registered, succeeding stage
appends exactly one message to the history, not two — the response is
returned but never appended, so after 1 dispatch the history length is
1, refuting `history length = 2 × dispatch calls`. -/
theorem c1_counterexample :
    (send_message protocol₀ stubProcess 0 0 "user" "research" "q" none).1
      = .ok stubResponse ∧
    (send_message protocol₀ stubProcess 0 0 "user" "research" "q" none).2.state.messages.length
      = 1 ∧
    (send_message protocol₀ stubProcess 0 0 "user" "research" "q" none).2.state.messages.length
      ≠ 2 * 1 :=
  ⟨rfl, rfl, by decide⟩

/-- C1 (amended): each dispatch call appends exactly one message to the
conversation history (the constructed input message; the stage's response
is returned but not appended), so the history length after a successful
run equals exactly 1 times the number of dispatch calls, in call order. -/
theorem c1_history_length_equals_dispatch_count
    (process : String → AgentMessage → Except String AgentMessage) :
    ∀ (calls : List (Nat × Nat × String × String × String)) (p p' : AgentProtocol),
      runDispatches process p calls = .ok p' →
      p'.state.messages.length = p.state.messages.length + calls.length := by
  intro calls
  induction calls with
  | nil =>
      intro p p' h
      simp only [runDispatches] at h
      cases h
      simp
  | cons c rest ih =>
      intro p p' h
      obtain ⟨ts, mid, f, t, cn⟩ := c
      simp only [runDispatches] at h
      rcases hsm : send_message p process ts mid f t cn none with ⟨r, q⟩
      rw [hsm] at h
      cases r with
      | ok m =>
          have hq := send_message_ok_inv p process ts mid f t cn none m q hsm
          have hlen := ih q p' h
          rw [hlen, hq]
          simp
          omega
      | error e => cases h

/-- C1 witness: a concrete 3-dispatch run on the stub stage ends with a
history of exactly 3 messages. -/
theorem c1_history_length_witness :
    runDispatches stubProcess protocol₀ calls₃ = .ok protocol₃ ∧
    protocol₃.state.messages.length = protocol₀.state.messages.length + calls₃.length :=
  ⟨rfl, c1_history_length_equals_dispatch_count stubProcess calls₃ protocol₀ protocol₃ rfl⟩

/-! ## C2 -/

/-- C2: dispatch to an unregistered stage name raises the routing error
`"Agent <name> not found"` and leaves the coordinator — in particular the
conversation history — exactly as it was: nothing is appended. -/
theorem c2_unregistered_stage_errors_history_unchanged
    (p : AgentProtocol) (process : String → AgentMessage → Except String AgentMessage)
    (ts mid : Nat) (f t c : String) (md : Option (List (String × JsonValue)))
    (h : t ∉ p.agents) :
    send_message p process ts mid f t c md = (.error ("Agent " ++ t ++ " not found"), p) := by
  simp [send_message, h]

/-- C2 witness: dispatching to the unregistered name `"nope"` on the
concrete coordinator fails and leaves it unchanged. -/
theorem c2_unregistered_stage_witness :
    send_message protocol₀ stubProcess 0 0 "user" "nope" "q" none
      = (.error ("Agent " ++ "nope" ++ " not found"), protocol₀) :=
  c2_unregistered_stage_errors_history_unchanged protocol₀ stubProcess 0 0 "user" "nope" "q"
    none (by decide)

/-! ## C6 -/

/-- C6 counterexample: dispatches sent from two different stages
(`"researcher"` and `"formatter"`) append messages with the identical
hard-coded role `assistant`; in particular the message sent from the
researcher does not carry the researcher role, so senders are not
distinguishable by role in the history. -/
theorem c6_counterexample :
    (send_message protocol₀ stubProcess 0 0 "researcher" "research" "q" none).2.state.messages
      = [mkDispatchMessage "q" none 0 0] ∧
    (send_message protocol₀ stubProcess 0 0 "formatter" "research" "q" none).2.state.messages
      = [mkDispatchMessage "q" none 0 0] ∧
    (mkDispatchMessage "q" none 0 0).role = AgentRole.assistant ∧
    AgentRole.assistant ≠ AgentRole.researcher :=
  ⟨rfl, rfl, rfl, by decide⟩

/-- C6 (amended): the message constructed and appended by dispatch always
carries the fixed role `assistant`, whatever `fromName` is; `fromName`
has no effect at all on the dispatch, so messages sent by different
stages are not distinguishable by role in the history. -/
theorem c6_dispatch_role_fixed_assistant
    (p : AgentProtocol) (process : String → AgentMessage → Except String AgentMessage)
    (ts mid : Nat) (f₁ f₂ t c : String) (md : Option (List (String × JsonValue))) :
    send_message p process ts mid f₁ t c md = send_message p process ts mid f₂ t c md ∧
    (t ∈ p.agents →
      (send_message p process ts mid f₁ t c md).2.state.messages
        = p.state.messages ++ [mkDispatchMessage c md ts mid] ∧
      (mkDispatchMessage c md ts mid).role = AgentRole.assistant) := by
  refine ⟨rfl, fun hmem => ⟨?_, rfl⟩⟩
  cases hp : process t (mkDispatchMessage c md ts mid) with
  | ok r => rw [send_message_ok_eq p process ts mid f₁ t c md r hmem hp]
  | error e => rw [send_message_error_eq p process ts mid f₁ t c md e hmem hp]

/-- C6 amended-claim witness: at the concrete coordinator, the dispatched
message's role evaluates to `assistant`. -/
theorem c6_dispatch_role_witness :
    (send_message protocol₀ stubProcess 0 0 "researcher" "research" "q" none).2.state.messages
      = protocol₀.state.messages ++ [mkDispatchMessage "q" none 0 0] ∧
    (mkDispatchMessage "q" none 0 0).role = AgentRole.assistant :=
  (c6_dispatch_role_fixed_assistant protocol₀ stubProcess 0 0 "researcher" "formatter"
    "research" "q" none).2 (by decide)

/-! ## C8 -/

/-- C8: `get_conversation_history` is a pure read — it leaves the
coordinator untouched, and a second call with the same limit (no dispatch
in between) returns the identical message sequence. -/
theorem c8_get_history_idempotent (p : AgentProtocol) (limit : Option Nat) :
    (get_conversation_history p limit).2 = p ∧
    (get_conversation_history (get_conversation_history p limit).2 limit).1
      = (get_conversation_history p limit).1 := by
  cases limit with
  | none => exact ⟨rfl, rfl⟩
  | some n =>
      by_cases h : n = 0 <;> simp [get_conversation_history, h]

/-! ## C9 -/

/-- C9: when the target stage is registered but its `process_message`
raises, the dispatch input message has already been appended to the
history and stays there — the coordinator's state is not rolled back on
stage failure. -/
theorem c9_no_rollback_on_stage_failure
    (p : AgentProtocol) (process : String → AgentMessage → Except String AgentMessage)
    (ts mid : Nat) (f t c : String) (md : Option (List (String × JsonValue))) (e : String)
    (hmem : t ∈ p.agents)
    (hp : process t (mkDispatchMessage c md ts mid) = .error e) :
    (send_message p process ts mid f t c md).1 = .error e ∧
    (send_message p process ts mid f t c md).2.state.messages
      = p.state.messages ++ [mkDispatchMessage c md ts mid] := by
  rw [send_message_error_eq p process ts mid f t c md e hmem hp]
  exact ⟨rfl, rfl⟩

/-- C9 witness: with the always-raising stage, the concrete dispatch
fails and the input message remains in the history. -/
theorem c9_no_rollback_witness :
    (send_message protocol₀ failProcess 0 0 "user" "research" "q" none).1 = .error "boom" ∧
    (send_message protocol₀ failProcess 0 0 "user" "research" "q" none).2.state.messages
      = protocol₀.state.messages ++ [mkDispatchMessage "q" none 0 0] :=
  c9_no_rollback_on_stage_failure protocol₀ failProcess 0 0 "user" "research" "q" none
    "boom" (by decide) rfl

/-! ## C10 -/

/-- C10: `get_conversation_history` with a limit of 0 returns the entire
history (Python `if limit:` treats 0 like an absent limit); with a
positive limit `n` it returns the last `min n length` messages, a
contiguous tail of the history in order. -/
theorem c10_limit_zero_full_history (p : AgentProtocol) (n : Nat) :
    (get_conversation_history p (some 0)).1 = p.state.messages ∧
    (0 < n →
      (get_conversation_history p (some n)).1.length = min n p.state.messages.length ∧
      ∃ pre, p.state.messages = pre ++ (get_conversation_history p (some n)).1) := by
  constructor
  · simp [get_conversation_history]
  · intro hn
    have hne : n ≠ 0 := Nat.pos_iff_ne_zero.mp hn
    constructor
    · simp only [get_conversation_history, hne, if_pos, ne_eq, not_false_iff, if_true,
        List.length_drop]
      omega
    · exact ⟨p.state.messages.take (p.state.messages.length - n),
        by simp [get_conversation_history, hne, List.take_append_drop]⟩

/-- C10 witness: on a history of 3 messages, limit 2 returns the last 2
messages (a tail of length `min 2 3`). -/
theorem c10_limit_witness :
    (get_conversation_history protocol₃ (some 2)).1.length = min 2 protocol₃.state.messages.length ∧
    ∃ pre, protocol₃.state.messages = pre ++ (get_conversation_history protocol₃ (some 2)).1 :=
  (c10_limit_zero_full_history protocol₃ 2).2 (by decide)

/-! ## C3 -/

/-- C3: whenever the decoded expansion payload is neither a list nor a
dict containing a `"variations"` key, `_expand_query` returns exactly the
4 documented templated fallback variants, determined by the query alone
(the same query always yields the same 4 strings, whatever the
non-conforming payload was). -/
theorem c3_fallback_variants (query : String) (result : JsonValue)
    (h₁ : result.isList = false) (h₂ : hasVariationsKey result = false) :
    expand_query query result = .arr ((fallbackVariations query).map .str) ∧
    fallbackVariations query =
      [query ++ " overview and background",
       query ++ " key aspects and features",
       query ++ " impact and significance",
       query ++ " current status and developments"] := by
  refine ⟨?_, rfl⟩
  cases result with
  | obj fields =>
      cases hv : dictGet fields "variations" with
      | some v => exact absurd h₂ (by simp [hasVariationsKey, hv])
      | none => simp [expand_query, hv]
  | arr xs => exact absurd h₁ (by simp [JsonValue.isList])
  | str s => rfl
  | num n => rfl
  | bool b => rfl
  | null => rfl

/-- C3 witness: the non-conforming payload `None` yields the 4 fallback
variants for the query `"q"`. -/
theorem c3_fallback_witness :
    expand_query "q" JsonValue.null = .arr ((fallbackVariations "q").map .str) ∧
    fallbackVariations "q" =
      ["q" ++ " overview and background",
       "q" ++ " key aspects and features",
       "q" ++ " impact and significance",
       "q" ++ " current status and developments"] :=
  c3_fallback_variants "q" JsonValue.null rfl rfl

/-! ## C4 -/

/-- Containment, in order: each block occurs in `s`, each strictly after
the previous one (the blocks tile a subsequence of `s` left to right). -/
def containsInOrder : List (List Char) → List Char → Prop
  | [], _ => True
  | b :: bs, s => ∃ pre rest, s = pre ++ b ++ rest ∧ containsInOrder bs rest

/-- Prepending text preserves in-order containment. -/
theorem containsInOrder_extend (t : List Char) :
    ∀ (bs : List (List Char)) (s : List Char),
      containsInOrder bs s → containsInOrder bs (t ++ s) := by
  intro bs
  cases bs with
  | nil => intro s _; trivial
  | cons b bs' =>
      intro s h
      obtain ⟨pre, rest, hs, hrest⟩ := h
      exact ⟨t ++ pre, rest, by rw [hs]; simp, hrest⟩

/-- Joining blocks with blank lines contains every block, in order. -/
theorem join2NL_contains : ∀ bs : List String,
    containsInOrder (bs.map String.data) (join2NL bs).data := by
  intro bs
  induction bs with
  | nil => trivial
  | cons b rest ih =>
      cases rest with
      | nil => exact ⟨[], [], by simp [join2NL], trivial⟩
      | cons b' rest' =>
          refine ⟨[], "\n\n".data ++ (join2NL (b' :: rest')).data, ?_, ?_⟩
          · simp [join2NL]
          · exact containsInOrder_extend _ _ _ ih

/-- The `k`-th labelled block produced from running index `i` is
`"Result <i+k+1>:\n"` followed by the `k`-th result. -/
theorem labelFrom_getD : ∀ (rs : List String) (i k : Nat), k < rs.length →
    (labelFrom i rs).getD k ""
      = "Result " ++ toString (i + k + 1) ++ ":\n" ++ rs.getD k "" := by
  intro rs
  induction rs with
  | nil => intro i k h; simp at h
  | cons r rs' ih =>
      intro i k h
      cases k with
      | zero => simp [labelFrom]
      | succ k' =>
          simp only [labelFrom, List.getD_cons_succ]
          rw [ih (i + 1) k' (by simpa using h)]
          have harith : i + 1 + k' + 1 = i + (k' + 1) + 1 := by omega
          rw [harith]

/-- C4: from `N` expanded variants the Researcher derives exactly `N`
sub-search results (one `_conduct_search` per aspect, gathered in task
order), and the combined text handed to the merge/rank call carries the
blocks `"Result 1:"` through `"Result N:"` — block `k` holding sub-search
result `k` — occurring in the text in that order. -/
theorem c4_fanout_fanin (conduct : String → String → String) (query : String)
    (aspects : List JsonValue) :
    (aspects.map (fun aspect => conduct query (pyStr aspect))).length = aspects.length ∧
    (∀ k, k < aspects.length →
      (labelFrom 0 (aspects.map (fun aspect => conduct query (pyStr aspect)))).getD k ""
        = "Result " ++ toString (k + 1) ++ ":\n"
            ++ (aspects.map (fun aspect => conduct query (pyStr aspect))).getD k "") ∧
    containsInOrder
      ((labelFrom 0 (aspects.map (fun aspect => conduct query (pyStr aspect)))).map String.data)
      (combinedResults (aspects.map (fun aspect => conduct query (pyStr aspect)))).data := by
  refine ⟨List.length_map _ _, ?_, join2NL_contains _⟩
  intro k hk
  have h := labelFrom_getD (aspects.map (fun aspect => conduct query (pyStr aspect))) 0 k
    (by simpa using hk)
  simpa using h

/-- C4 witness: two aspects produce two results, the combined text holds
`Result 1:` then `Result 2:`, with the first block evaluated explicitly. -/
theorem c4_fanout_witness :
    (labelFrom 0
        ([JsonValue.str "a1", JsonValue.str "a2"].map
          (fun aspect => (fun _ a => "found " ++ a) "q" (pyStr aspect)))).getD 0 ""
      = "Result " ++ toString (0 + 1) ++ ":\n"
          ++ ([JsonValue.str "a1", JsonValue.str "a2"].map
              (fun aspect => (fun _ a => "found " ++ a) "q" (pyStr aspect))).getD 0 "" :=
  (c4_fanout_fanin (fun _ a => "found " ++ a) "q" [JsonValue.str "a1", JsonValue.str "a2"]).2.1
    0 (by decide)

/-! ## C5 -/

/-- Events before the terminal `complete` of the success sequence are all
non-terminal (`status` or phase-result events). -/
theorem successEvents_take9_not_terminal (ar er sr wr : String) :
    ∀ e ∈ (successEvents ar er sr wr).take 9, e.isTerminal = false := by
  intro e he
  simp [successEvents, List.take] at he
  rcases he with rfl | rfl | rfl | rfl | rfl | rfl | rfl | rfl | rfl <;> rfl

/-- C5: every event stream produced by `generate_search_events` — on the
success path or with an exception escaping at any point — contains exactly
one terminal event (`complete` or `error`), that terminal event is the
last one emitted, and every event before it is a non-terminal status or
phase-result event. -/
theorem c5_single_terminal_event (ar er sr wr : String) (failure : Option (Nat × String)) :
    ((generate_search_events ar er sr wr failure).filter (fun e => e.isTerminal)).length = 1 ∧
    (∃ e, (generate_search_events ar er sr wr failure).getLast? = some e ∧
      e.isTerminal = true) ∧
    ∀ e ∈ (generate_search_events ar er sr wr failure).dropLast, e.isTerminal = false := by
  cases failure with
  | none =>
      refine ⟨?_, ⟨⟨.complete, "Search completed"⟩, ?_, rfl⟩, ?_⟩
      · simp [generate_search_events, successEvents, SSEEvent.isTerminal, List.filter]
      · simp [generate_search_events, successEvents]
      · intro e he
        simp [generate_search_events, successEvents, List.dropLast] at he
        rcases he with rfl | rfl | rfl | rfl | rfl | rfl | rfl | rfl | rfl <;> rfl
  | some km =>
      obtain ⟨k, msg⟩ := km
      have hsub : ∀ e ∈ (successEvents ar er sr wr).take (min k 9), e.isTerminal = false := by
        intro e he
        apply successEvents_take9_not_terminal ar er sr wr e
        have htt : (successEvents ar er sr wr).take (min k 9)
            = ((successEvents ar er sr wr).take 9).take (min k 9) := by
          rw [List.take_take]
          congr 1
          omega
        exact List.take_subset _ _ (htt ▸ he)
      refine ⟨?_, ⟨⟨.error, msg⟩, ?_, rfl⟩, ?_⟩
      · simp only [generate_search_events]
        rw [List.filter_append]
        have h1 : ((successEvents ar er sr wr).take (min k 9)).filter
            (fun e => e.isTerminal) = [] :=
          List.filter_eq_nil_iff.mpr (fun a ha => by simp [hsub a ha])
        rw [h1]
        rfl
      · simp only [generate_search_events]
        exact List.getLast?_concat _
      · intro e he
        simp only [generate_search_events, List.dropLast_concat] at he
        exact hsub e he

/-- C5 witness: on a concrete run aborted after 3 events, the first
emitted status event is indeed non-terminal. -/
theorem c5_single_terminal_witness :
    SSEEvent.isTerminal ⟨.status, "Starting analysis..."⟩ = false :=
  (c5_single_terminal_event "a" "e" "s" "w" (some (3, "x"))).2.2
    ⟨.status, "Starting analysis..."⟩ (by decide)

/-! ## C7 -/

/-- C7: each concrete stage's `process_message` response carries the
stage's own identity as role — `researcher`, `analyzer`, `formatter`
respectively — and its metadata contains a `"reasoning"` entry (for the
Researcher, whenever the stage returns at all). -/
theorem c7_stage_role_and_reasoning
    (expandOracle : String → JsonValue) (conduct rank analyze : String → String → String)
    (formatOracle : String → String) (ts mid : Nat) (message : AgentMessage) :
    (∀ resp, ResearchAgent.process_message expandOracle conduct rank ts mid message
        = .ok resp →
      resp.role = AgentRole.researcher ∧ (dictGet resp.metadata "reasoning").isSome = true) ∧
    ((AnalysisAgent.process_message analyze ts mid message).role = AgentRole.analyzer ∧
      (dictGet (AnalysisAgent.process_message analyze ts mid message).metadata
        "reasoning").isSome = true) ∧
    ((FormattingAgent.process_message formatOracle ts mid message).role
        = AgentRole.formatter ∧
      (dictGet (FormattingAgent.process_message formatOracle ts mid message).metadata
        "reasoning").isSome = true) := by
  refine ⟨?_, ⟨rfl, rfl⟩, ⟨rfl, rfl⟩⟩
  intro resp h
  simp only [ResearchAgent.process_message] at h
  cases hi : iterElems (expand_query message.content (expandOracle message.content)) with
  | error e => rw [hi] at h; cases h
  | ok aspects =>
      rw [hi] at h
      cases h
      exact ⟨rfl, rfl⟩

/-- A concrete successful researcher response: trivial search and rank
oracles over the expansion `["v1", "v2"]` of the query `"q"`. -/
def researcherDemoResponse : AgentMessage :=
  { role := .researcher,
    content := "Result 1:\nv1\n\nResult 2:\nv2",
    metadata :=
      [("query", .str "q"),
       ("expanded_queries", .arr [.str "v1", .str "v2"]),
       ("research_type", .str "semantic_search"),
       ("reasoning", .str "Research completed: 2 results found and analyzed")],
    timestamp := 0, message_id := 0 }

/-- The incoming user message of the researcher demo. -/
def researcherDemoInput : AgentMessage :=
  { role := .user, content := "q", metadata := [], timestamp := 0, message_id := 0 }

/-- C7 witness: on the demo input the Researcher succeeds and the theorem
yields the researcher role and a populated reasoning entry. -/
theorem c7_stage_role_witness :
    researcherDemoResponse.role = AgentRole.researcher ∧
    (dictGet researcherDemoResponse.metadata "reasoning").isSome = true :=
  (c7_stage_role_and_reasoning (fun _ => .arr [.str "v1", .str "v2"])
    (fun _ a => a) (fun _ c => c) (fun _ c => c) (fun c => c) 0 0 researcherDemoInput).1
    researcherDemoResponse rfl
